import Mathlib

/-!
Verification of the network-diagnostics core (network_diagnostics.c).

The C source is embedded shallowly: pure helpers (`calculate_elapsed_ms`,
`calculate_icmp_checksum`, the `COMMON_PORTS` table) become Lean functions
on mathematical integers with explicit reductions where machine width
matters; the probe functions (`check_tcp_connectivity`, `perform_icmp_ping`,
`scan_services_in_range`) become functions of an explicit environment that
records the outcomes the operating system hands back (socket creation,
address parsing, connect errno, select readiness, SO_ERROR, receive
results).  Each definition carries a comment naming the source lines it
embeds.
-/

namespace NetDiag

/-- Model of `struct timeval`: the seconds and microseconds fields as
mathematical integers. -/
structure Timeval where
  sec : Int
  usec : Int
  deriving DecidableEq, Repr

/-- C signed integer division truncates toward zero, which is `Int.tdiv`. -/
def cdiv (a b : Int) : Int := Int.tdiv a b

/-- Embedding of `calculate_elapsed_ms` (network_diagnostics.c:59-64):
`(end.tv_sec - start.tv_sec) * 1000 + (end.tv_usec - start.tv_usec) / 1000`
with C truncating division. -/
def calculate_elapsed_ms (tstart tend : Timeval) : Int :=
  (tend.sec - tstart.sec) * 1000 + cdiv (tend.usec - tstart.usec) 1000

/-! ## Internet checksum (`calculate_icmp_checksum`, lines 252-280) -/

/-- Reading the byte buffer as 16-bit words the way the summation loop at
lines 259-269 does on a little-endian machine: `*ptr` pairs consecutive
bytes as `lo + 256 * hi`, and a final odd byte is added as-is
(`sum += *(unsigned char *)ptr`). -/
def toWords : List Nat → List Nat
  | [] => []
  | [b] => [b]
  | b0 :: b1 :: rest => (b0 + 256 * b1) :: toWords rest

/-- The accumulation loop `sum += *ptr++` (lines 259-263): `sum` is a
32-bit `unsigned int`, so each addition wraps modulo 2^32. -/
def sum_words32 (ws : List Nat) : Nat :=
  ws.foldl (fun s w => (s + w) % 4294967296) 0

/-- One-step body of the end-around carry loop at lines 272-275:
`sum = (sum & 0xFFFF) + (sum >> 16)`; `>> 16` is division by 65536 and
`& 0xFFFF` is reduction modulo 65536.  The loop runs while `sum >> 16` is
non-zero; each iteration strictly decreases `sum`, so a fuel of `s` itself
bounds the iteration count and the fuelled recursion below computes the
exact fixpoint of the C loop. -/
def foldCarryAux : Nat → Nat → Nat
  | 0, s => s
  | fuel + 1, s =>
    if s / 65536 = 0 then s else foldCarryAux fuel (s % 65536 + s / 65536)

/-- The fully folded carry value produced by the loop at lines 272-275. -/
def foldCarry (s : Nat) : Nat := foldCarryAux s s

/-- Embedding of `calculate_icmp_checksum` (lines 252-280): sum the 16-bit
words with a wrapping 32-bit accumulator, fold the carries, then take the
one's complement.  On a result already below 65536, the 16-bit `~sum` is
`65535 - sum`. -/
def calculate_icmp_checksum (bytes : List Nat) : Nat :=
  65535 - foldCarry (sum_words32 (toWords bytes))

/-- Writing the computed checksum into the packet,
`((uint16_t *)send_buffer)[1] = checksum` (line 391): on a little-endian
machine this stores byte 2 := low byte and byte 3 := high byte. -/
def setChecksum (bytes : List Nat) (c : Nat) : List Nat :=
  (bytes.set 2 (c % 256)).set 3 (c / 256)

/-! ## ICMP probe (`perform_icmp_ping`, lines 306-478) -/

/-- Parsed view of a received ICMP packet: identifier, sequence number and
the timestamp carried in the payload.  The source never parses
`recv_buffer` at all (lines 422-445); these fields exist so that the
reply-matching and payload-timestamp claims can be stated against the
embedded handler, which ignores them exactly as the source does. -/
structure IcmpReply where
  ident : Nat
  seq : Nat
  payload_ts : Timeval
  deriving DecidableEq, Repr

/-- Embedding of the reply-handling branch of `perform_icmp_ping`
(lines 424-450): if `recvfrom` returned a positive byte count the attempt
succeeds and the RTT is `calculate_elapsed_ms(send_time, recv_time)`
(line 430) using the locally stored `send_time` of the current attempt;
otherwise the attempt is recorded as lost.  The received packet `reply`
itself is never inspected — no identifier, sequence or payload check. -/
def icmp_handle_reply (send_time : Timeval) (bytes_recv : Int)
    (recv_time : Timeval) (reply : IcmpReply) : Option Int :=
  if bytes_recv > 0 then some (calculate_elapsed_ms send_time recv_time)
  else none

/-- Modelled from the spec for comparison (claim C1): latency computed as
receive time minus the timestamp embedded in the reply packet's payload. -/
def icmp_attempt_latency_spec (recv_time : Timeval) (reply : IcmpReply) : Int :=
  calculate_elapsed_ms reply.payload_ts recv_time

/-- The three ways one iteration of the send loop (lines 354-451) can end:
`sendto` fails (line 405, `continue`), a datagram arrives before the
receive timeout (`bytes_recv > 0`, line 427), or no reply arrives. -/
inductive AttemptOutcome where
  | sendFail
  | reply
  | timedOut
  deriving DecidableEq, Repr

/-- Value of `success_count` after `n` iterations of the loop at lines
354-451: it is incremented exactly when the iteration received data
(line 441). -/
def icmp_success_count (env : Nat → AttemptOutcome) : Nat → Nat
  | 0 => 0
  | n + 1 =>
    icmp_success_count env n + (if env n = AttemptOutcome.reply then 1 else 0)

/-- The aggregate values reported by the statistics block, lines 455-477. -/
structure IcmpStats where
  sent : Int
  received : Nat
  lossPercent : Option Rat
  reachable : Bool
  deriving DecidableEq, Repr

/-- Embedding of the statistics block (lines 455-477): `sent` is printed
as `packet_count` unconditionally (line 457); the loss percentage
`((float)(packet_count - success_count) / packet_count) * 100` (line 462)
is computed only under the guard `success_count > 0` (line 460), here
idealized as exact rational division; the run is reported reachable iff
at least one reply was received. -/
def icmp_report (packet_count : Int) (success_count : Nat) : IcmpStats :=
  { sent := packet_count
    received := success_count
    lossPercent :=
      if 0 < success_count then
        some ((((packet_count : Rat) - (success_count : Rat)) /
          (packet_count : Rat)) * 100)
      else none
    reachable := decide (0 < success_count) }

/-- Environment of one `perform_icmp_ping` call: whether the raw socket
can be created (line 318), whether the address parses (line 331), and the
outcome of each attempt of the send loop. -/
structure IcmpEnv where
  socket_ok : Bool
  pton_ok : Bool
  attempts : Nat → AttemptOutcome

/-- Observable result of `perform_icmp_ping`: the C return value, the
statistics when the run reaches the statistics block, and how many
sockets were created and closed. -/
structure IcmpResult where
  retval : Int
  stats : Option IcmpStats
  socketsOpened : Nat
  socketsClosed : Nat

/-- Embedding of `perform_icmp_ping` (lines 306-478) at the level of
socket lifecycle and aggregate statistics.  Raw-socket failure returns
before any socket exists (lines 318-324); an invalid address closes the
socket first (lines 331-336); otherwise the loop runs
`max(packet_count, 0)` times — the C loop `for (i = 0; i < packet_count;
i++)` — the socket is closed at line 453, and the return value is 1 iff
at least one reply was received (lines 460-477). -/
def perform_icmp_ping (packet_count : Int) (env : IcmpEnv) : IcmpResult :=
  if ¬env.socket_ok then ⟨0, none, 0, 0⟩
  else if ¬env.pton_ok then ⟨0, none, 1, 1⟩
  else
    let sc := icmp_success_count env.attempts packet_count.toNat
    ⟨if 0 < sc then 1 else 0, some (icmp_report packet_count sc), 1, 1⟩

/-! ## Service discovery (`COMMON_PORTS` and `scan_services_in_range`,
lines 490-646) -/

/-- Embedding of the `COMMON_PORTS` table (lines 496-510), in source
order. -/
def COMMON_PORTS : List (String × Nat) :=
  [("SSH", 22), ("Telnet", 23), ("SMTP", 25), ("DNS", 53), ("HTTP", 80),
   ("POP3", 110), ("IMAP", 143), ("HTTPS", 443), ("MySQL", 3306),
   ("PostgreSQL", 5432), ("Redis", 6379), ("MongoDB", 27017),
   ("RDP", 3389)]

/-- Modelled from the spec for comparison (claim C4): the catalog order as
the specification states it, ending `..., Redis/6379, RDP/3389,
MongoDB/27017`. -/
def SPEC_PORTS : List (String × Nat) :=
  [("SSH", 22), ("Telnet", 23), ("SMTP", 25), ("DNS", 53), ("HTTP", 80),
   ("POP3", 110), ("IMAP", 143), ("HTTPS", 443), ("MySQL", 3306),
   ("PostgreSQL", 5432), ("Redis", 6379), ("RDP", 3389),
   ("MongoDB", 27017)]

/-- How one catalog entry's socket fares during a scan: `socket()` fails
(lines 564-570), `connect` fails immediately with an errno other than
EINPROGRESS (lines 580-586), or the attempt is left pending with the
SO_ERROR value and write-set membership later observed at lines 622-626. -/
inductive SockAttempt where
  | createFail
  | connectFail
  | pending (so_error : Int) (writable : Bool)
  deriving DecidableEq, Repr

/-- Classification printed per entry at lines 626-636. -/
inductive PortClass where
  | portOpen
  | closedFiltered
  deriving DecidableEq, Repr

/-- Tests the `pending` case of `SockAttempt`. -/
def isPending : SockAttempt → Bool
  | SockAttempt.pending _ _ => true
  | _ => false

/-- Tests the `createFail` case of `SockAttempt`. -/
def isCreateFail : SockAttempt → Bool
  | SockAttempt.createFail => true
  | _ => false

/-- Tests the `connectFail` case of `SockAttempt`. -/
def isConnectFail : SockAttempt → Bool
  | SockAttempt.connectFail => true
  | _ => false

/-- Body of the results loop, lines 617-639: an entry whose socket slot is
`-1` — creation failure (line 568) or immediate connect failure (line
585) — is skipped by the `continue` at lines 619-620 and yields no
classification; otherwise the entry is OPEN iff `SO_ERROR` is 0 and the
descriptor is still in the write set (line 626), else CLOSED/FILTERED. -/
def scan_classify : SockAttempt → (String × Nat) →
    Option ((String × Nat) × PortClass)
  | SockAttempt.pending e w, entry =>
    some (entry,
      if e = 0 ∧ w = true then PortClass.portOpen
      else PortClass.closedFiltered)
  | _, _ => none

/-- The classifications produced by the results loop (lines 617-639), in
catalog order, one per entry whose socket survived the first loop. -/
def scan_results (env : Nat → SockAttempt) :
    List ((String × Nat) × PortClass) :=
  (List.enumFrom 0 COMMON_PORTS).filterMap
    (fun p => scan_classify (env p.1) p.2)

/-- Sockets created by the first loop (lines 559-587): one per entry
unless `socket()` itself fails. -/
def scan_sockets_opened (env : Nat → SockAttempt) : Nat :=
  (List.range COMMON_PORTS.length).countP (fun i => !isCreateFail (env i))

/-- Sockets closed before the function returns: immediate connect
failures are closed at line 584; every surviving socket is closed at
line 638 of the results loop. -/
def scan_sockets_closed (env : Nat → SockAttempt) : Nat :=
  (List.range COMMON_PORTS.length).countP (fun i => isConnectFail (env i)) +
  (List.range COMMON_PORTS.length).countP (fun i => isPending (env i))

/-- Observable result of `scan_services_in_range`: the classification
list and the socket lifecycle counts. -/
structure ScanResult where
  results : List ((String × Nat) × PortClass)
  socketsOpened : Nat
  socketsClosed : Nat

/-- Embedding of `scan_services_in_range` (lines 527-646): an invalid
address returns before any socket is created (lines 547-551); otherwise
the two loops produce one attempted probe per catalog entry. -/
def scan_services_in_range (pton_ok : Bool) (env : Nat → SockAttempt) :
    ScanResult :=
  if pton_ok then
    ⟨scan_results env, scan_sockets_opened env, scan_sockets_closed env⟩
  else ⟨[], 0, 0⟩

/-! ## TCP probe (`check_tcp_connectivity`, lines 88-226) -/

/-- Environment of one `check_tcp_connectivity` call: the OS-provided
outcomes of `socket` (line 111), `inet_pton` (line 136), `connect` and
its errno (lines 152-163), `select` (line 178), `SO_ERROR` (line 192),
and the two wall-clock samples (lines 91 and 206). -/
structure TcpEnv where
  socket_ok : Bool
  pton_ok : Bool
  connect_result : Int
  errno_is_einprogress : Bool
  select_result : Int
  so_error : Int
  start_time : Timeval
  end_time : Timeval
  deriving DecidableEq, Repr

/-- The classification printed by `check_tcp_connectivity` on each of its
exit paths. -/
inductive TcpOutcome where
  | invalidPort
  | socketFail
  | invalidAddr
  | connectFail
  | timedOut
  | closedPort (err : Int)
  | portOpen (latencyMs : Int)
  deriving DecidableEq, Repr

/-- Observable result of `check_tcp_connectivity`: the classification,
the C return value, and the socket lifecycle counts. -/
structure TcpResult where
  outcome : TcpOutcome
  retval : Int
  socketsOpened : Nat
  socketsClosed : Nat
  deriving DecidableEq, Repr

/-- Embedding of `check_tcp_connectivity` (lines 88-226), branch for
branch: port validation before any socket exists (lines 94-98); socket
creation (lines 111-116); address parsing, closing the socket on failure
(lines 136-141); `connect` failing with an errno other than EINPROGRESS
(lines 155-163); `select(...) <= 0` classified as timeout (lines
180-186); non-zero `SO_ERROR` classified as refused/closed (lines
194-200); otherwise the port is open, the RTT is measured from the
`gettimeofday` at line 91 to the one at line 206, and the function
returns 1 (lines 206-225).  Every path past socket creation closes the
socket. -/
def check_tcp_connectivity (port : Int) (env : TcpEnv) : TcpResult :=
  if port < 1 ∨ port > 65535 then ⟨TcpOutcome.invalidPort, 0, 0, 0⟩
  else if ¬env.socket_ok then ⟨TcpOutcome.socketFail, 0, 0, 0⟩
  else if ¬env.pton_ok then ⟨TcpOutcome.invalidAddr, 0, 1, 1⟩
  else if env.connect_result < 0 ∧ ¬env.errno_is_einprogress then
    ⟨TcpOutcome.connectFail, 0, 1, 1⟩
  else if env.select_result ≤ 0 then ⟨TcpOutcome.timedOut, 0, 1, 1⟩
  else if env.so_error ≠ 0 then ⟨TcpOutcome.closedPort env.so_error, 0, 1, 1⟩
  else
    ⟨TcpOutcome.portOpen (calculate_elapsed_ms env.start_time env.end_time),
      1, 1, 1⟩

/-! ## Helper lemmas -/

/-- The fuelled carry-folding loop, run with enough fuel, yields a value
below 65536, congruent to its input modulo 65535 (one step replaces
`65536 * q + r` by `q + r`, and `65536 ≡ 1 (mod 65535)`), positive when
the input is positive, and never larger than the input. -/
theorem foldCarryAux_spec (fuel s : Nat) (hf : s ≤ fuel) :
    foldCarryAux fuel s < 65536 ∧
    foldCarryAux fuel s % 65535 = s % 65535 ∧
    (0 < s → 0 < foldCarryAux fuel s) ∧
    foldCarryAux fuel s ≤ s := by
  induction fuel generalizing s with
  | zero =>
    obtain rfl : s = 0 := by omega
    simp [foldCarryAux]
  | succ fuel ih =>
    simp only [foldCarryAux]
    by_cases h : s / 65536 = 0
    · rw [if_pos h]
      omega
    · rw [if_neg h]
      have hlt : s % 65536 + s / 65536 ≤ fuel := by omega
      have := ih (s % 65536 + s / 65536) hlt
      omega

/-- Specification of `foldCarry`, obtained from the fuelled version:
fuel `s` always suffices. -/
theorem foldCarry_spec (s : Nat) :
    foldCarry s < 65536 ∧ foldCarry s % 65535 = s % 65535 ∧
    (0 < s → 0 < foldCarry s) ∧ foldCarry s ≤ s :=
  foldCarryAux_spec s s le_rfl

/-- Folding a wrapping addition over a list computes the plain sum modulo
2^32. -/
theorem sum_words32_foldl (ws : List Nat) (a : Nat) :
    ws.foldl (fun s w => (s + w) % 4294967296) (a % 4294967296) =
      (a + ws.sum) % 4294967296 := by
  induction ws generalizing a with
  | nil => simp
  | cons w ws ih =>
    simp only [List.foldl_cons, List.sum_cons]
    rw [Nat.mod_add_mod, ih (a + w)]
    ring_nf

/-- When the plain word sum fits in 32 bits, the wrapping accumulator of
the source computes it exactly. -/
theorem sum_words32_eq (ws : List Nat) (h : ws.sum < 4294967296) :
    sum_words32 ws = ws.sum := by
  have h0 := sum_words32_foldl ws 0
  simp only [Nat.zero_mod, Nat.zero_add] at h0
  unfold sum_words32
  rw [h0, Nat.mod_eq_of_lt h]

/-- Each 16-bit word assembled from bytes below 256 is at most 65535, so
the word sum is bounded by `65535 *` the byte count. -/
theorem toWords_sum_le (bytes : List Nat) (hb : ∀ b ∈ bytes, b < 256) :
    (toWords bytes).sum ≤ 65535 * bytes.length := by
  induction bytes using toWords.induct with
  | case1 => simp [toWords]
  | case2 b => simp [toWords] at hb ⊢; omega
  | case3 b0 b1 rest ih =>
    simp only [toWords, List.sum_cons, List.length_cons]
    have hb0 : b0 < 256 := hb b0 (by simp)
    have hb1 : b1 < 256 := hb b1 (by simp)
    have := ih (fun b hbm => hb b (by simp [hbm]))
    omega

/-- Truncating division by 1000 of any value at least -999999 is at least
-999. -/
theorem tdiv1000_lower (x : Int) (h : -999999 ≤ x) :
    -999 ≤ Int.tdiv x 1000 := by
  rcases le_or_lt 0 x with hx | hx
  · have h0 : (0 : Int) ≤ Int.tdiv x 1000 := Int.tdiv_nonneg hx (by norm_num)
    omega
  · have hneg : Int.tdiv x 1000 = -Int.tdiv (-x) 1000 := by
      rw [← Int.neg_tdiv, neg_neg]
    have h1 : Int.tdiv (-x) 1000 = (-x) / 1000 :=
      Int.tdiv_eq_ediv (by omega) (by norm_num)
    have h2 : (-x) / 1000 ≤ 999 := by omega
    omega

/-- The success counter never exceeds the number of loop iterations. -/
theorem icmp_success_count_le (env : Nat → AttemptOutcome) (n : Nat) :
    icmp_success_count env n ≤ n := by
  induction n with
  | zero => simp [icmp_success_count]
  | succ n ih =>
    simp only [icmp_success_count]
    split_ifs <;> omega

/-- A `SockAttempt` satisfying `isPending` is a `pending` value. -/
theorem isPending_exists (a : SockAttempt) (h : isPending a = true) :
    ∃ e w, a = SockAttempt.pending e w := by
  cases a with
  | createFail => simp [isPending] at h
  | connectFail => simp [isPending] at h
  | pending e w => exact ⟨e, w, rfl⟩

/-- When every entry of the scan environment is pending, the
classification loop keeps every catalog entry, in order. -/
theorem scan_pending_filterMap (l : List (String × Nat)) (k : Nat)
    (env : Nat → SockAttempt) (h : ∀ i, isPending (env i) = true) :
    ((List.enumFrom k l).filterMap
      (fun p => scan_classify (env p.1) p.2)).map Prod.fst = l := by
  induction l generalizing k with
  | nil => simp
  | cons a l ih =>
    obtain ⟨e, w, he⟩ := isPending_exists (env k) (h k)
    have hhead : scan_classify (env k) a =
        some (a, if e = 0 ∧ w = true then PortClass.portOpen
          else PortClass.closedFiltered) := by
      rw [he]
      rfl
    simp [List.enumFrom, hhead, ih (k + 1)]

/-- Every created socket is either an immediate connect failure or a
pending probe, so counting created sockets equals counting those two
classes. -/
theorem countP_attempt_split (l : List Nat) (env : Nat → SockAttempt) :
    l.countP (fun i => !isCreateFail (env i)) =
      l.countP (fun i => isConnectFail (env i)) +
      l.countP (fun i => isPending (env i)) := by
  induction l with
  | nil => simp
  | cons a l ih =>
    rw [List.countP_cons, List.countP_cons, List.countP_cons, ih]
    cases henv : env a <;>
      simp [isCreateFail, isConnectFail, isPending] <;> omega

/-! ## Claims -/

/-- Claim C1, counterexample.  The claim states that the reported latency
of an attempt is computed as receive time minus the send timestamp
embedded in the reply packet's payload, not from the probe's internal
clock.  The embedded handler (lines 424-445) uses the local `send_time`
and never reads the reply, so an environment in which the reply payload
carries a different timestamp refutes the claim. -/
theorem claim_C1_counterexample :
    ¬ (∀ (st rt : Timeval) (n : Int) (reply : IcmpReply) (v : Int),
        icmp_handle_reply st n rt reply = some v →
        v = icmp_attempt_latency_spec rt reply) := by
  intro h
  have hx := h ⟨0, 0⟩ ⟨5, 0⟩ 64 ⟨0, 0, ⟨3, 0⟩⟩ 5000 (by decide)
  exact absurd hx (by decide)

/-- Claim C1, amended: for every attempt whose reply arrives before the
timeout, the reported latency is computed as receive time minus the
locally recorded send time of the current attempt (the probe's internal
clock); the timestamp embedded in the reply's payload is never read. -/
theorem claim_C1 (st rt : Timeval) (n : Int) (reply : IcmpReply) (v : Int)
    (h : icmp_handle_reply st n rt reply = some v) :
    v = calculate_elapsed_ms st rt := by
  unfold icmp_handle_reply at h
  by_cases hn : n > 0
  · rw [if_pos hn] at h
    exact (Option.some.inj h).symm
  · rw [if_neg hn] at h
    exact absurd h (by simp)

/-- Witness for the amended C1 at a concrete input. -/
theorem claim_C1_witness :
    (1000 : Int) = calculate_elapsed_ms ⟨0, 0⟩ ⟨1, 0⟩ :=
  claim_C1 ⟨0, 0⟩ ⟨1, 0⟩ 64 ⟨0, 0, ⟨0, 0⟩⟩ 1000 (by decide)

/-- Claim C2, counterexample.  The claim states that a received packet is
counted as the reply to an attempt only if its identifier and sequence
number match the attempt's.  The embedded handler counts any packet with
a positive byte count (line 427) and never inspects identifier or
sequence, so a packet with mismatched identifier and sequence is still
counted. -/
theorem claim_C2_counterexample :
    ¬ (∀ (expected_id expected_seq : Nat) (st rt : Timeval) (n : Int)
        (reply : IcmpReply),
        (reply.ident ≠ expected_id ∨ reply.seq ≠ expected_seq) →
        icmp_handle_reply st n rt reply = none) := by
  intro h
  have hx := h 0 0 ⟨0, 0⟩ ⟨1, 0⟩ 64 ⟨999, 999, ⟨0, 0⟩⟩ (Or.inl (by decide))
  exact absurd hx (by decide)

/-- Claim C2, amended: a received packet is counted as the reply to the
outstanding attempt exactly when `recvfrom` returned a positive byte
count; the packet's identifier and sequence number are never compared, so
the handler's result is independent of the packet's contents. -/
theorem claim_C2 (st rt : Timeval) (n : Int) (r1 r2 : IcmpReply) :
    icmp_handle_reply st n rt r1 = icmp_handle_reply st n rt r2 ∧
    ((icmp_handle_reply st n rt r1).isSome ↔ 0 < n) := by
  unfold icmp_handle_reply
  split_ifs with h <;> simp [h]

/-- Witness for the amended C2 at a concrete input. -/
theorem claim_C2_witness :
    icmp_handle_reply ⟨0, 0⟩ 64 ⟨1, 0⟩ ⟨1, 2, ⟨0, 0⟩⟩ =
      icmp_handle_reply ⟨0, 0⟩ 64 ⟨1, 0⟩ ⟨3, 4, ⟨7, 7⟩⟩ :=
  (claim_C2 ⟨0, 0⟩ ⟨1, 0⟩ 64 ⟨1, 2, ⟨0, 0⟩⟩ ⟨3, 4, ⟨7, 7⟩⟩).1

/-- Claim C3, counterexample.  The claim states that a run of 3 packets
with 0 replies reports sent=3, received=0 and lossPercent=100.0.  In the
source the loss percentage is computed only under the guard
`success_count > 0` (line 460): with 0 replies the statistics block
prints sent and received but no loss percentage at all. -/
theorem claim_C3_counterexample :
    (icmp_report 3 (icmp_success_count (fun _ => AttemptOutcome.timedOut)
      (Int.toNat 3))).sent = 3 ∧
    (icmp_report 3 (icmp_success_count (fun _ => AttemptOutcome.timedOut)
      (Int.toNat 3))).received = 0 ∧
    (icmp_report 3 (icmp_success_count (fun _ => AttemptOutcome.timedOut)
      (Int.toNat 3))).lossPercent = none ∧
    (icmp_report 3 (icmp_success_count (fun _ => AttemptOutcome.timedOut)
      (Int.toNat 3))).lossPercent ≠ some 100 := by
  refine ⟨rfl, rfl, rfl, ?_⟩
  decide

/-- Claim C3, amended: for every run with N ≥ 0 packets the reported sent
count equals N and the received count is at most N; when at least one
reply was received the loss percentage equals (sent-received)/sent*100
exactly (rational idealization of the float arithmetic), and when no
reply was received no loss percentage is computed. -/
theorem claim_C3 (pc : Int) (env : Nat → AttemptOutcome) (hpc : 0 ≤ pc) :
    (icmp_report pc (icmp_success_count env pc.toNat)).sent = pc ∧
    ((icmp_report pc (icmp_success_count env pc.toNat)).received : Int) ≤ pc ∧
    (0 < icmp_success_count env pc.toNat →
      (icmp_report pc (icmp_success_count env pc.toNat)).lossPercent =
        some ((((pc : Rat) - ((icmp_success_count env pc.toNat : Nat) : Rat)) /
          (pc : Rat)) * 100)) ∧
    (icmp_success_count env pc.toNat = 0 →
      (icmp_report pc (icmp_success_count env pc.toNat)).lossPercent = none) := by
  have hle := icmp_success_count_le env pc.toNat
  refine ⟨rfl, ?_, ?_, ?_⟩
  · simp only [icmp_report]
    omega
  · intro hs
    simp [icmp_report, hs]
  · intro hs
    simp [icmp_report, hs]

/-- Witness for the amended C3 at a concrete input. -/
theorem claim_C3_witness :
    (icmp_report 3 (icmp_success_count (fun _ => AttemptOutcome.reply)
      (Int.toNat 3))).sent = 3 :=
  (claim_C3 3 (fun _ => AttemptOutcome.reply) (by decide)).1

/-- Claim C4, counterexample.  The claim lists the catalog with RDP/3389
in position 12 and MongoDB/27017 in position 13; in the source table
(lines 496-510) the last two entries are the other way around: index 11
holds MongoDB/27017 and index 12 holds RDP/3389. -/
theorem claim_C4_counterexample :
    COMMON_PORTS ≠ SPEC_PORTS ∧
    COMMON_PORTS.get? 11 = some ("MongoDB", 27017) ∧
    SPEC_PORTS.get? 11 = some ("RDP", 3389) := by
  refine ⟨?_, rfl, rfl⟩
  decide

/-- Claim C4, amended: the service-discovery port catalog is a fixed,
ordered, read-only list of exactly 13 (name, port) entries, in this
order: SSH/22, Telnet/23, SMTP/25, DNS/53, HTTP/80, POP3/110, IMAP/143,
HTTPS/443, MySQL/3306, PostgreSQL/5432, Redis/6379, MongoDB/27017,
RDP/3389 — with no duplicated name or port. -/
theorem claim_C4 :
    COMMON_PORTS.length = 13 ∧
    COMMON_PORTS =
      [("SSH", 22), ("Telnet", 23), ("SMTP", 25), ("DNS", 53), ("HTTP", 80),
       ("POP3", 110), ("IMAP", 143), ("HTTPS", 443), ("MySQL", 3306),
       ("PostgreSQL", 5432), ("Redis", 6379), ("MongoDB", 27017),
       ("RDP", 3389)] ∧
    (COMMON_PORTS.map Prod.snd).Nodup ∧
    (COMMON_PORTS.map Prod.fst).Nodup := by
  refine ⟨rfl, rfl, ?_, ?_⟩ <;> decide

/-- Claim C5, counterexample.  The claim states that every invocation
with a valid address classifies each of the 13 catalog entries exactly
once regardless of outcome.  If the first entry's `socket()` call fails,
the source marks its slot -1 (line 568) and the results loop skips it
(lines 619-620), so only 12 classifications are produced and SSH/22 gets
none. -/
theorem claim_C5_counterexample :
    (scan_services_in_range true (fun i =>
      if i = 0 then SockAttempt.createFail
      else SockAttempt.pending 0 true)).results.length = 12 ∧
    ((scan_services_in_range true (fun i =>
      if i = 0 then SockAttempt.createFail
      else SockAttempt.pending 0 true)).results.map Prod.fst).count
        ("SSH", 22) = 0 ∧
    ((scan_services_in_range true (fun i =>
      if i = 0 then SockAttempt.createFail
      else SockAttempt.pending 0 true)).results.map Prod.fst) ≠
      COMMON_PORTS := by
  refine ⟨rfl, rfl, ?_⟩
  decide

/-- Claim C5, amended: for every invocation with a valid address in which
every catalog entry's socket is created successfully and no connection
attempt fails immediately (every probe reaches the shared readiness
wait), the scan produces exactly one classification for each of the 13
catalog entries, each entry appearing exactly once, in catalog order,
regardless of the open/closed outcome. -/
theorem claim_C5 (env : Nat → SockAttempt)
    (h : ∀ i, isPending (env i) = true) :
    ((scan_services_in_range true env).results.map Prod.fst) =
      COMMON_PORTS ∧
    (scan_services_in_range true env).results.length = 13 := by
  have hm : ((scan_services_in_range true env).results.map Prod.fst) =
      COMMON_PORTS := by
    show (scan_results env).map Prod.fst = COMMON_PORTS
    exact scan_pending_filterMap COMMON_PORTS 0 env h
  refine ⟨hm, ?_⟩
  have hl := congrArg List.length hm
  rw [List.length_map] at hl
  exact hl.trans rfl

/-- Witness for the amended C5 at a concrete environment. -/
theorem claim_C5_witness :
    ((scan_services_in_range true
      (fun _ => SockAttempt.pending 0 true)).results.map Prod.fst) =
      COMMON_PORTS :=
  (claim_C5 (fun _ => SockAttempt.pending 0 true) (fun _ => rfl)).1

/-- Claim C6: the TCP probe classifies its outcome as follows: a port
outside [1,65535] yields an immediate error before any socket is created;
if the readiness wait expires with no readiness the outcome is Timeout
with return 0; if readiness occurs and SO_ERROR is zero the outcome is
Open with latency measured from probe start to readiness and return 1;
if SO_ERROR is non-zero the outcome is Closed with the OS-reported error
and return 0; and the function returns success exactly when the outcome
is Open. -/
theorem claim_C6 (port : Int) (env : TcpEnv) :
    ((port < 1 ∨ port > 65535) →
      check_tcp_connectivity port env = ⟨TcpOutcome.invalidPort, 0, 0, 0⟩) ∧
    (¬(port < 1 ∨ port > 65535) → env.socket_ok = true →
      env.pton_ok = true →
      ¬(env.connect_result < 0 ∧ ¬env.errno_is_einprogress) →
      ((env.select_result ≤ 0 →
        (check_tcp_connectivity port env).outcome = TcpOutcome.timedOut ∧
        (check_tcp_connectivity port env).retval = 0) ∧
      (0 < env.select_result → env.so_error = 0 →
        (check_tcp_connectivity port env).outcome =
          TcpOutcome.portOpen
            (calculate_elapsed_ms env.start_time env.end_time) ∧
        (check_tcp_connectivity port env).retval = 1) ∧
      (0 < env.select_result → env.so_error ≠ 0 →
        (check_tcp_connectivity port env).outcome =
          TcpOutcome.closedPort env.so_error ∧
        (check_tcp_connectivity port env).retval = 0))) ∧
    ((check_tcp_connectivity port env).retval = 1 ↔
      ∃ l, (check_tcp_connectivity port env).outcome =
        TcpOutcome.portOpen l) := by
  unfold check_tcp_connectivity
  split_ifs with h1 h2 h3 h4 h5 h6 <;> refine ⟨?_, ?_, ?_⟩ <;> simp_all

/-- Witness for C6 at a concrete environment: readiness with SO_ERROR 0
yields the Open outcome with the start-to-readiness latency. -/
theorem claim_C6_witness :
    (check_tcp_connectivity 80
      ⟨true, true, -1, true, 1, 0, ⟨0, 0⟩, ⟨0, 5000⟩⟩).outcome =
      TcpOutcome.portOpen 5 ∧
    (check_tcp_connectivity 80
      ⟨true, true, -1, true, 1, 0, ⟨0, 0⟩, ⟨0, 5000⟩⟩).retval = 1 := by
  have h := ((claim_C6 80
      ⟨true, true, -1, true, 1, 0, ⟨0, 0⟩, ⟨0, 5000⟩⟩).2.1
    (by decide) rfl rfl (by decide)).2.1 (by decide) rfl
  refine ⟨?_, h.2⟩
  rw [h.1]
  decide

/-- Claim C7: Internet-checksum self-verification.  For any byte buffer
(with a zeroed 16-bit checksum field at bytes 2-3, bytes below 256,
length at most 65536 so the 32-bit accumulator of the source cannot
wrap), computing the checksum and writing it into the checksum field
yields a buffer over which recomputing the same checksum gives zero. -/
theorem claim_C7 (bytes : List Nat) (hlen : bytes.length ≤ 65536)
    (hb : ∀ b ∈ bytes, b < 256) (h2 : bytes.get? 2 = some 0)
    (h3 : bytes.get? 3 = some 0) :
    calculate_icmp_checksum
      (setChecksum bytes (calculate_icmp_checksum bytes)) = 0 := by
  obtain _ | ⟨b0, _ | ⟨b1, _ | ⟨b2, _ | ⟨b3, rest⟩⟩⟩⟩ := bytes
  · exact absurd h2 (by simp)
  · exact absurd h2 (by simp)
  · exact absurd h2 (by simp)
  · exact absurd h3 (by simp)
  · have hb2 : b2 = 0 := by injection h2
    have hb3 : b3 = 0 := by injection h3
    subst hb2
    subst hb3
    have hb0 : b0 < 256 := hb b0 (by simp)
    have hb1 : b1 < 256 := hb b1 (by simp)
    have hlen4 : rest.length + 4 ≤ 65536 := by
      simpa using hlen
    have hR_le : (toWords rest).sum ≤ 65535 * rest.length :=
      toWords_sum_le rest (fun b hbm => hb b (by simp [hbm]))
    have hS : (toWords (b0 :: b1 :: 0 :: 0 :: rest)).sum =
        (b0 + 256 * b1) + (toWords rest).sum := by
      simp [toWords]
    have hS_le : (toWords (b0 :: b1 :: 0 :: 0 :: rest)).sum ≤ 4294705155 := by
      rw [hS]
      omega
    have hcs : calculate_icmp_checksum (b0 :: b1 :: 0 :: 0 :: rest) =
        65535 - foldCarry ((toWords (b0 :: b1 :: 0 :: 0 :: rest)).sum) := by
      unfold calculate_icmp_checksum
      rw [sum_words32_eq _ (by omega)]
    obtain ⟨hFlt, hFmod, hFpos, hFle⟩ :=
      foldCarry_spec ((toWords (b0 :: b1 :: 0 :: 0 :: rest)).sum)
    have hsetc : setChecksum (b0 :: b1 :: 0 :: 0 :: rest)
        (calculate_icmp_checksum (b0 :: b1 :: 0 :: 0 :: rest)) =
        b0 :: b1 ::
          (calculate_icmp_checksum (b0 :: b1 :: 0 :: 0 :: rest) % 256) ::
          (calculate_icmp_checksum (b0 :: b1 :: 0 :: 0 :: rest) / 256) ::
          rest := rfl
    have hnewW : toWords (b0 :: b1 ::
        (calculate_icmp_checksum (b0 :: b1 :: 0 :: 0 :: rest) % 256) ::
        (calculate_icmp_checksum (b0 :: b1 :: 0 :: 0 :: rest) / 256) ::
        rest) =
        (b0 + 256 * b1) ::
          (calculate_icmp_checksum (b0 :: b1 :: 0 :: 0 :: rest) % 256 +
            256 * (calculate_icmp_checksum (b0 :: b1 :: 0 :: 0 :: rest) / 256)) ::
          toWords rest := rfl
    have hS2 : (toWords (setChecksum (b0 :: b1 :: 0 :: 0 :: rest)
        (calculate_icmp_checksum (b0 :: b1 :: 0 :: 0 :: rest)))).sum =
        (toWords (b0 :: b1 :: 0 :: 0 :: rest)).sum +
          calculate_icmp_checksum (b0 :: b1 :: 0 :: 0 :: rest) := by
      rw [hsetc, hnewW, Nat.mod_add_div, hS]
      simp [List.sum_cons]
      ring
    have hc_le : calculate_icmp_checksum (b0 :: b1 :: 0 :: 0 :: rest) ≤
        65535 := by
      rw [hcs]
      omega
    have hS2_lt : (toWords (setChecksum (b0 :: b1 :: 0 :: 0 :: rest)
        (calculate_icmp_checksum (b0 :: b1 :: 0 :: 0 :: rest)))).sum <
        4294967296 := by
      rw [hS2]
      omega
    have hfinal : calculate_icmp_checksum (setChecksum
        (b0 :: b1 :: 0 :: 0 :: rest)
        (calculate_icmp_checksum (b0 :: b1 :: 0 :: 0 :: rest))) =
        65535 - foldCarry ((toWords (b0 :: b1 :: 0 :: 0 :: rest)).sum +
          calculate_icmp_checksum (b0 :: b1 :: 0 :: 0 :: rest)) := by
      show 65535 - foldCarry (sum_words32 (toWords (setChecksum
        (b0 :: b1 :: 0 :: 0 :: rest)
        (calculate_icmp_checksum (b0 :: b1 :: 0 :: 0 :: rest))))) = _
      rw [sum_words32_eq _ hS2_lt, hS2]
    obtain ⟨hGlt, hGmod, hGpos, hGle⟩ :=
      foldCarry_spec ((toWords (b0 :: b1 :: 0 :: 0 :: rest)).sum +
        calculate_icmp_checksum (b0 :: b1 :: 0 :: 0 :: rest))
    rw [hfinal]
    omega

/-- Witness for C7 at a concrete buffer. -/
theorem claim_C7_witness :
    calculate_icmp_checksum
      (setChecksum [1, 2, 0, 0, 3, 4]
        (calculate_icmp_checksum [1, 2, 0, 0, 3, 4])) = 0 :=
  claim_C7 [1, 2, 0, 0, 3, 4] (by decide) (by decide) (by decide) (by decide)

/-- Claim C8: in every probe operation — TCP probe, ICMP probe,
service-discovery scanner — every socket that was successfully created is
closed before the operation returns, on every exit path, including
validation failures before any network I/O. -/
theorem claim_C8 (port : Int) (tenv : TcpEnv) (pc : Int) (ienv : IcmpEnv)
    (pton : Bool) (senv : Nat → SockAttempt) :
    (check_tcp_connectivity port tenv).socketsOpened =
      (check_tcp_connectivity port tenv).socketsClosed ∧
    (perform_icmp_ping pc ienv).socketsOpened =
      (perform_icmp_ping pc ienv).socketsClosed ∧
    (scan_services_in_range pton senv).socketsOpened =
      (scan_services_in_range pton senv).socketsClosed := by
  refine ⟨?_, ?_, ?_⟩
  · unfold check_tcp_connectivity
    split_ifs <;> rfl
  · unfold perform_icmp_ping
    split_ifs <;> rfl
  · unfold scan_services_in_range
    split_ifs with h
    · show scan_sockets_opened senv = scan_sockets_closed senv
      unfold scan_sockets_opened scan_sockets_closed
      exact countP_attempt_split _ _
    · rfl

/-- Claim C9: for every pair of captured timestamps with the end not
earlier than the start and microsecond fields in [0, 999999], the
elapsed-milliseconds computation of `calculate_elapsed_ms` (truncating
integer division) is non-negative; hence a successful TCP probe reports a
non-negative latency. -/
theorem claim_C9 (ts te : Timeval) (hs1 : 0 ≤ ts.usec)
    (hs2 : ts.usec ≤ 999999) (he1 : 0 ≤ te.usec) (he2 : te.usec ≤ 999999)
    (hord : ts.sec < te.sec ∨ (ts.sec = te.sec ∧ ts.usec ≤ te.usec)) :
    0 ≤ calculate_elapsed_ms ts te := by
  unfold calculate_elapsed_ms cdiv
  rcases hord with h | ⟨h1, h2⟩
  · have hq : -999 ≤ Int.tdiv (te.usec - ts.usec) 1000 :=
      tdiv1000_lower _ (by omega)
    omega
  · have hq : 0 ≤ Int.tdiv (te.usec - ts.usec) 1000 :=
      Int.tdiv_nonneg (by omega) (by norm_num)
    omega

/-- Witness for C9 across a second boundary. -/
theorem claim_C9_witness :
    0 ≤ calculate_elapsed_ms ⟨0, 999999⟩ ⟨1, 0⟩ :=
  claim_C9 ⟨0, 999999⟩ ⟨1, 0⟩ (by decide) (by decide) (by decide)
    (by decide) (Or.inl (by decide))

/-- Claim C10: the loss-percentage division by the packet count (line
462) is executed only when the report actually carries a loss value,
which requires at least one received reply, and then the divisor
`packet_count` is at least 1 — division by zero is unreachable for every
input, including a packet count of zero. -/
theorem claim_C10 (pc : Int) (env : Nat → AttemptOutcome)
    (h : (icmp_report pc
      (icmp_success_count env pc.toNat)).lossPercent.isSome = true) :
    1 ≤ pc ∧ 0 < icmp_success_count env pc.toNat := by
  have hle := icmp_success_count_le env pc.toNat
  by_cases hs : 0 < icmp_success_count env pc.toNat
  · refine ⟨?_, hs⟩
    omega
  · exact absurd h (by simp [icmp_report, hs])

/-- Witness for C10 at a concrete run. -/
theorem claim_C10_witness :
    1 ≤ (3 : Int) ∧
    0 < icmp_success_count (fun _ => AttemptOutcome.reply) (Int.toNat 3) :=
  claim_C10 3 (fun _ => AttemptOutcome.reply) (by decide)

end NetDiag
